import Mathlib

/-!
Verification of the HairGPT application (`src/main.py`).

The program is a thin pipeline: a Gradio UI hands `analyze_hair` an optional
PIL image; the image is re-serialized as JPEG and base64-encoded
(`encode_image`), embedded in a fixed chat request sent once to the OpenAI
endpoint, and the structured `HairAnalysis` reply is rendered by an f-string
formatter.  We embed the pipeline shallowly: the two external collaborators
(PIL's JPEG serializer and the OpenAI client) are parameters returning
`Except String _` (an exception is an `Except.error` carrying `str(e)`), and
`analyze_hair` additionally returns the list of requests it sent, so that
"the remote client is never invoked" is expressible.  Python's `base64`
module is embedded as an executable RFC 4648 encoder/decoder over byte lists.
-/

/-! ## Base64 codec (embedding of Python `base64.b64encode` / `b64decode`) -/

/-- The RFC 4648 standard base64 alphabet used by Python's `base64` module. -/
def b64chars : List Char :=
  "ABCDEFGHIJKLMNOPQRSTUVWXYZabcdefghijklmnopqrstuvwxyz0123456789+/".toList

/-- The alphabet character for a 6-bit value `n < 64`. -/
def b64char (n : Nat) : Char := b64chars.getD n 'A'

/-- The 6-bit value of an alphabet character, `none` for non-alphabet input. -/
def b64index (c : Char) : Option Nat := b64chars.findIdx? (fun d => d = c)

/-- `base64.b64encode` on a byte sequence: each 3-byte group becomes 4
alphabet characters; a trailing 1- or 2-byte group is padded with `=`. -/
def b64encodeList : List Nat → List Char
  | [] => []
  | [a] => [b64char (a / 4), b64char (a % 4 * 16), '=', '=']
  | [a, b] => [b64char (a / 4), b64char (a % 4 * 16 + b / 16), b64char (b % 16 * 4), '=']
  | a :: b :: c :: rest =>
      b64char (a / 4) :: b64char (a % 4 * 16 + b / 16) ::
      b64char (b % 16 * 4 + c / 64) :: b64char (c % 64) :: b64encodeList rest

/-- `base64.b64decode` on a character sequence: quadruples of alphabet
characters, with `=`-padding allowed only in the final quadruple; trailing
bits of a padded quadruple are discarded, as Python does. -/
def b64decodeList : List Char → Option (List Nat)
  | [] => some []
  | c1 :: c2 :: c3 :: c4 :: rest =>
      match b64index c1, b64index c2 with
      | some w, some x =>
        if c3 = '=' then
          if c4 = '=' ∧ rest = [] then some [w * 4 + x / 16] else none
        else
          match b64index c3 with
          | some y =>
            if c4 = '=' then
              if rest = [] then some [w * 4 + x / 16, x % 16 * 16 + y / 4] else none
            else
              match b64index c4, b64decodeList rest with
              | some z, some tail =>
                  some ((w * 4 + x / 16) :: (x % 16 * 16 + y / 4) :: (y % 4 * 64 + z) :: tail)
              | _, _ => none
          | none => none
      | _, _ => none
  | _ => none

/-- `base64.b64encode(bytes).decode()`: the base64 text as a string. -/
def b64encode (bs : List Nat) : String := String.mk (b64encodeList bs)

/-- `base64.b64decode` from a string back to bytes. -/
def b64decode (s : String) : Option (List Nat) := b64decodeList s.toList

/-! ## Data model (`class HairAnalysis(BaseModel)`, `src/main.py` lines 23-29)

The pydantic model declares six required fields and, as the source comment
says, no validation constraints: every `Field(..., description=...)` only
documents intent, so any integer is accepted as `health_score`. -/

structure HairAnalysis where
  hair_type : String
  hair_texture : String
  scalp_condition : String
  visible_issues : List String
  health_score : Int
  recommendations : List String
  deriving DecidableEq

/-! ## Request builder (`client.beta.chat.completions.parse(...)` call site) -/

/-- The `response_format=HairAnalysis` argument: the requested output schema. -/
inductive ResponseFormat where
  | hairAnalysis
  deriving DecidableEq

/-- The outbound chat-completion request assembled at `src/main.py` lines 44-75. -/
structure ChatRequest where
  model : String
  systemContent : String
  userText : String
  imageUrl : String
  responseFormat : ResponseFormat
  deriving DecidableEq

/-- The hard-coded system message (`src/main.py` lines 49-56), byte-for-byte
including the indentation the Python triple-quoted literal carries. -/
def systemPrompt : String :=
  "You are a professional hair analysis system. Analyze the image and provide structured information about the hair and scalp.\n                    Important scoring guidelines:\n                    - Health score must be an integer from 1 to 10\n                    - Score meanings:\n                      1-3: Poor condition\n                      4-6: Average condition\n                      7-8: Good condition\n                      9-10: Excellent condition"

/-- The hard-coded user text (`src/main.py` line 63). -/
def userPrompt : String :=
  "Analyze this hair/scalp image and provide a detailed hair analysis. Remember to provide a health score between 1 and 10 only."

/-- The request built from the base64 image encoding: a fixed model
identifier, fixed system and user texts, the image as a JPEG data URI, and
the `HairAnalysis` schema as `response_format`. -/
def buildRequest (img_base64 : String) : ChatRequest :=
  { model := "gpt-4o-mini"
    systemContent := systemPrompt
    userText := userPrompt
    imageUrl := "data:image/jpeg;base64," ++ img_base64
    responseFormat := ResponseFormat.hairAnalysis }

/-! ## Image codec (`encode_image`, `src/main.py` lines 31-34)

`image.save(buffered, format="JPEG")` is PIL, an external collaborator: it is
a parameter `jpegSerialize` producing the JPEG byte serialization of the
bitmap (or an exception's message).  The rest of `encode_image` is
`base64.b64encode(...).decode()`. -/

def encode_image {Image : Type} (jpegSerialize : Image → Except String (List Nat))
    (image : Image) : Except String String :=
  (jpegSerialize image).map b64encode

/-! ## Result formatter (the f-string at `src/main.py` lines 79-90) -/

/-- `chr(10).join('   • ' + s for s in l)`: each element on its own line,
prefixed by three spaces and a bullet. -/
def bulletLines : List String → String
  | [] => ""
  | [x] => "   • " ++ x
  | x :: xs => "   • " ++ x ++ "\n" ++ bulletLines xs

/-- The Visible Issues block: the bulleted list when `visible_issues` is
truthy (non-empty), otherwise the placeholder line (`src/main.py` line 86). -/
def issuesSection (issues : List String) : String :=
  match issues with
  | [] => "   No major issues detected"
  | _ => bulletLines issues

/-- The full f-string `formatted_result` (`src/main.py` lines 79-90). -/
def formatted_result (result : HairAnalysis) : String :=
  "\nHair Analysis Results:\n\n1. Hair Type: " ++ result.hair_type ++
  "\n2. Hair Texture: " ++ result.hair_texture ++
  "\n3. Scalp Condition: " ++ result.scalp_condition ++
  "\n4. Visible Issues:\n" ++ issuesSection result.visible_issues ++
  "\n5. Hair Health Score: " ++ toString result.health_score ++ "/10" ++
  "\n6. Recommendations:\n" ++ bulletLines result.recommendations ++ "\n"

/-! ## Handler (`analyze_hair`, `src/main.py` lines 36-96)

The handler short-circuits on `None`, then runs encode → remote call →
format inside `try`, and the `except Exception` clause turns any failure
into `"Error analyzing image: " + str(e)`.  The second component of the
returned pair is the list of requests actually handed to the remote client,
in order, so that claims about the client being invoked (or not) are
statable.  The function is total: no exception escapes it. -/

def analyze_hair {Image : Type} (jpegSerialize : Image → Except String (List Nat))
    (remoteParse : ChatRequest → Except String HairAnalysis) :
    Option Image → String × List ChatRequest
  | none => ("Please upload an image for analysis.", [])
  | some image =>
      match encode_image jpegSerialize image with
      | Except.error e => ("Error analyzing image: " ++ e, [])
      | Except.ok img_base64 =>
          let req := buildRequest img_base64
          match remoteParse req with
          | Except.error e => ("Error analyzing image: " ++ e, [req])
          | Except.ok result => (formatted_result result, [req])

/-! ## Startup environment check (`src/main.py` lines 17-20)

`os.environ["OPENAI_API_KEY"] = os.getenv("OPENAI_API_KEY")` is the only
environment access in the program.  When the variable is absent,
`os.getenv` yields `None` and `os.environ.__setitem__` raises
`TypeError: str expected, not NoneType`, so the process fails at startup,
before any analysis call.  `env` is the process environment as seen after
`load_dotenv()`. -/

def startupSetKey (env : String → Option String) : Except String Unit :=
  match env "OPENAI_API_KEY" with
  | none => Except.error "str expected, not NoneType"
  | some _ => Except.ok ()

/-- The spec's example result: hair_type="curly", hair_texture="coarse",
scalp_condition="dry", visible_issues=["dandruff"], health_score=6,
recommendations=["use moisturizing shampoo"]. -/
def exampleResult : HairAnalysis :=
  { hair_type := "curly"
    hair_texture := "coarse"
    scalp_condition := "dry"
    visible_issues := ["dandruff"]
    health_score := 6
    recommendations := ["use moisturizing shampoo"] }

/-- A record like `exampleResult` but with no visible issues. -/
def exampleNoIssues : HairAnalysis := { exampleResult with visible_issues := [] }

/-- A record like `exampleResult` but with no recommendations. -/
def exampleNoRecs : HairAnalysis := { exampleResult with recommendations := [] }

/-! ## Helper lemmas -/

/-- Decoding an alphabet character recovers its 6-bit value. -/
theorem b64index_b64char : ∀ n < 64, b64index (b64char n) = some n := by decide

/-- No alphabet character is the padding character. -/
theorem b64char_ne_pad : ∀ n < 64, b64char n ≠ '=' := by decide

/-- Base64 round-trip on byte lists: decoding the encoding of any byte
sequence recovers it exactly. -/
theorem b64_roundtrip (l : List Nat) (h : ∀ b ∈ l, b < 256) :
    b64decodeList (b64encodeList l) = some l := by
  induction l using b64encodeList.induct with
  | case1 => rfl
  | case2 a =>
      have ha : a < 256 := h a (by simp)
      have h1 := b64index_b64char (a / 4) (by omega)
      have h2 := b64index_b64char (a % 4 * 16) (by omega)
      simp [b64encodeList, b64decodeList, h1, h2]
      omega
  | case3 a b =>
      have ha : a < 256 := h a (by simp)
      have hb : b < 256 := h b (by simp)
      have h1 := b64index_b64char (a / 4) (by omega)
      have h2 := b64index_b64char (a % 4 * 16 + b / 16) (by omega)
      have h3 := b64index_b64char (b % 16 * 4) (by omega)
      have hne := b64char_ne_pad (b % 16 * 4) (by omega)
      simp [b64encodeList, b64decodeList, h1, h2, h3, hne]
      omega
  | case4 a b c rest ih =>
      have ha : a < 256 := h a (by simp)
      have hb : b < 256 := h b (by simp)
      have hc : c < 256 := h c (by simp)
      have hrest : ∀ x ∈ rest, x < 256 := fun x hx => h x (by simp [hx])
      have h1 := b64index_b64char (a / 4) (by omega)
      have h2 := b64index_b64char (a % 4 * 16 + b / 16) (by omega)
      have h3 := b64index_b64char (b % 16 * 4 + c / 64) (by omega)
      have h4 := b64index_b64char (c % 64) (by omega)
      have hne3 := b64char_ne_pad (b % 16 * 4 + c / 64) (by omega)
      have hne4 := b64char_ne_pad (c % 64) (by omega)
      simp [b64encodeList, b64decodeList, h1, h2, h3, h4, hne3, hne4, ih hrest]
      omega

/-- Every element of the joined bullet block occupies its own line: it
appears with the `   • ` prefix, right after a line break (or at the start of
the block), and is terminated by a line break. -/
theorem bulletLines_mem_line (l : List String) (x : String) (hx : x ∈ l) :
    ∃ a b : String, (a = "" ∨ ∃ a0, a = a0 ++ "\n") ∧
      bulletLines l ++ "\n" = a ++ ("   • " ++ x ++ "\n") ++ b := by
  induction l using bulletLines.induct with
  | case1 => exact absurd hx (List.not_mem_nil x)
  | case2 y =>
      rw [List.mem_singleton] at hx
      subst hx
      exact ⟨"", "", Or.inl rfl, by
        simp [bulletLines, String.empty_append, String.append_empty, String.append_assoc]⟩
  | case3 y ys hne ih =>
      obtain ⟨z, zs, rfl⟩ : ∃ z zs, ys = z :: zs := by
        cases ys with
        | nil => exact absurd rfl hne
        | cons z zs => exact ⟨z, zs, rfl⟩
      rcases List.mem_cons.mp hx with h | h
      · subst h
        refine ⟨"", bulletLines (z :: zs) ++ "\n", Or.inl rfl, ?_⟩
        simp [bulletLines, String.empty_append, String.append_assoc]
      · obtain ⟨a, b, ha, heq⟩ := ih h
        refine ⟨"   • " ++ y ++ "\n" ++ a, b, ?_, ?_⟩
        · rcases ha with h0 | ⟨a0, h0⟩
          · subst h0
            exact Or.inr ⟨"   • " ++ y, by
              simp [String.append_empty, String.append_assoc]⟩
          · subst h0
            exact Or.inr ⟨"   • " ++ y ++ "\n" ++ a0, by
              simp [String.append_assoc]⟩
        · have hL : bulletLines (y :: z :: zs) ++ "\n" =
              "   • " ++ y ++ "\n" ++ (bulletLines (z :: zs) ++ "\n") := by
            simp [bulletLines, String.append_assoc]
          rw [hL, heq]
          simp [String.append_assoc]

/-! ## Claims -/

/-- C1: For every null/absent image input, `analyze_hair` returns exactly the
fixed string "Please upload an image for analysis." and the remote inference
client is never invoked: the request trace is empty, so no request is
constructed or sent, for every serializer and every client. -/
theorem analyze_hair_none_short_circuits {Image : Type}
    (jpegSerialize : Image → Except String (List Nat))
    (remoteParse : ChatRequest → Except String HairAnalysis) :
    analyze_hair jpegSerialize remoteParse (none : Option Image) =
      ("Please upload an image for analysis.", []) := rfl

/-- C2: Every failure raised inside the pipeline — in image encoding or in
the remote call/response parsing — is caught, and `analyze_hair` returns
exactly `"Error analyzing image: "` followed by the exception's textual
message.  `analyze_hair` is a total function in this embedding, so no
exception propagates out of it. -/
theorem analyze_hair_pipeline_error {Image : Type}
    (jpegSerialize : Image → Except String (List Nat))
    (remoteParse : ChatRequest → Except String HairAnalysis)
    (img : Image) (e : String)
    (h : encode_image jpegSerialize img = Except.error e ∨
      ∃ s, encode_image jpegSerialize img = Except.ok s ∧
        remoteParse (buildRequest s) = Except.error e) :
    (analyze_hair jpegSerialize remoteParse (some img)).1 =
      "Error analyzing image: " ++ e := by
  rcases h with h1 | ⟨s, h1, h2⟩
  · simp [analyze_hair, h1]
  · simp [analyze_hair, h1, h2]

/-- Witness for C2: an encoder that fails with message "boom" makes the
handler return the error string. -/
theorem analyze_hair_pipeline_error_witness :
    (analyze_hair (fun _ : Unit => Except.error "boom")
        (fun _ => Except.error "x") (some ())).1 = "Error analyzing image: " ++ "boom" :=
  analyze_hair_pipeline_error (fun _ => Except.error "boom") (fun _ => Except.error "x")
    () "boom" (Or.inl rfl)

/-- C3: For every Hair Analysis Result the formatted output carries all six
field values in the fixed section order — hair type, hair texture, scalp
condition, the visible-issues block, the health score rendered as
`<score>/10`, and the recommendations block — and each element of a
non-empty list appears as its own bulleted line inside its block. -/
theorem formatted_result_field_order (r : HairAnalysis) :
    formatted_result r =
      "\nHair Analysis Results:\n\n1. Hair Type: " ++ r.hair_type ++
      "\n2. Hair Texture: " ++ r.hair_texture ++
      "\n3. Scalp Condition: " ++ r.scalp_condition ++
      "\n4. Visible Issues:\n" ++ issuesSection r.visible_issues ++
      "\n5. Hair Health Score: " ++ toString r.health_score ++ "/10" ++
      "\n6. Recommendations:\n" ++ bulletLines r.recommendations ++ "\n"
    ∧ (∀ x ∈ r.visible_issues, ∃ a b : String,
        (a = "" ∨ ∃ a0, a = a0 ++ "\n") ∧
        issuesSection r.visible_issues ++ "\n" = a ++ ("   • " ++ x ++ "\n") ++ b)
    ∧ (∀ x ∈ r.recommendations, ∃ a b : String,
        (a = "" ∨ ∃ a0, a = a0 ++ "\n") ∧
        bulletLines r.recommendations ++ "\n" = a ++ ("   • " ++ x ++ "\n") ++ b) := by
  refine ⟨rfl, ?_, ?_⟩
  · intro x hx
    have hsec : issuesSection r.visible_issues = bulletLines r.visible_issues := by
      cases hI : r.visible_issues with
      | nil => rw [hI] at hx; exact absurd hx (List.not_mem_nil x)
      | cons z zs => simp [issuesSection]
    rw [hsec]
    exact bulletLines_mem_line _ x hx
  · intro x hx
    exact bulletLines_mem_line _ x hx

/-- Witness for C3: on the spec's example result, "dandruff" is rendered as
its own bulleted line of the Visible Issues block. -/
theorem formatted_result_field_order_witness :
    ∃ a b : String, (a = "" ∨ ∃ a0, a = a0 ++ "\n") ∧
      issuesSection exampleResult.visible_issues ++ "\n" =
        a ++ ("   • " ++ "dandruff" ++ "\n") ++ b :=
  (formatted_result_field_order exampleResult).2.1 "dandruff" (by decide)

/-- C4: For every result whose `visible_issues` is the empty list, the
formatter emits the fixed placeholder line `   No major issues detected` in
the Visible Issues section instead of any bulleted lines. -/
theorem empty_issues_placeholder (r : HairAnalysis) (h : r.visible_issues = []) :
    issuesSection r.visible_issues = "   No major issues detected" ∧
    formatted_result r =
      "\nHair Analysis Results:\n\n1. Hair Type: " ++ r.hair_type ++
      "\n2. Hair Texture: " ++ r.hair_texture ++
      "\n3. Scalp Condition: " ++ r.scalp_condition ++
      "\n4. Visible Issues:\n" ++ "   No major issues detected" ++
      "\n5. Hair Health Score: " ++ toString r.health_score ++ "/10" ++
      "\n6. Recommendations:\n" ++ bulletLines r.recommendations ++ "\n" := by
  constructor
  · rw [h]
    rfl
  · simp [formatted_result, issuesSection, h]

/-- Witness for C4: the example result with its issues emptied. -/
theorem empty_issues_placeholder_witness :
    issuesSection exampleNoIssues.visible_issues = "   No major issues detected" ∧
    formatted_result exampleNoIssues =
      "\nHair Analysis Results:\n\n1. Hair Type: " ++ exampleNoIssues.hair_type ++
      "\n2. Hair Texture: " ++ exampleNoIssues.hair_texture ++
      "\n3. Scalp Condition: " ++ exampleNoIssues.scalp_condition ++
      "\n4. Visible Issues:\n" ++ "   No major issues detected" ++
      "\n5. Hair Health Score: " ++ toString exampleNoIssues.health_score ++ "/10" ++
      "\n6. Recommendations:\n" ++ bulletLines exampleNoIssues.recommendations ++ "\n" :=
  empty_issues_placeholder exampleNoIssues rfl

/-- C5: For every bitmap whose JPEG serialization succeeds, `encode_image`
returns the base64 string of the JPEG re-serialization without an error path
of its own, and base64-decoding that string recovers the JPEG bytes
exactly. -/
theorem encode_image_b64_roundtrip {Image : Type}
    (jpegSerialize : Image → Except String (List Nat))
    (img : Image) (jpeg : List Nat) (hok : jpegSerialize img = Except.ok jpeg)
    (hbytes : ∀ b ∈ jpeg, b < 256) :
    encode_image jpegSerialize img = Except.ok (b64encode jpeg) ∧
    b64decode (b64encode jpeg) = some jpeg := by
  constructor
  · simp [encode_image, hok, Except.map]
  · show b64decodeList (b64encodeList jpeg) = some jpeg
    exact b64_roundtrip jpeg hbytes

/-- Witness for C5: the two-byte image `Hi` (bytes 72, 105). -/
theorem encode_image_b64_roundtrip_witness :
    encode_image (fun _ : Unit => Except.ok [72, 105]) () = Except.ok (b64encode [72, 105]) ∧
    b64decode (b64encode [72, 105]) = some [72, 105] :=
  encode_image_b64_roundtrip (fun _ => Except.ok [72, 105]) () [72, 105] rfl (by decide)

/-- C6: The result formatter is a deterministic pure function: formatting
the same result twice yields character-for-character identical text. -/
theorem formatted_result_deterministic (r1 r2 : HairAnalysis) (h : r1 = r2) :
    formatted_result r1 = formatted_result r2 := congrArg formatted_result h

/-- Witness for C6: two runs on the example result agree. -/
theorem formatted_result_deterministic_witness :
    formatted_result exampleResult = formatted_result exampleResult :=
  formatted_result_deterministic exampleResult exampleResult rfl

/-- C7: The 1–10 range of `health_score` is not enforced anywhere: a
`HairAnalysis` record exists for every integer score, and the formatter
renders whatever score the record carries verbatim as `<n>/10`, with no
clamping or rejection. -/
theorem health_score_not_validated :
    (∀ n : Int, ∃ r : HairAnalysis, r.health_score = n) ∧
    (∀ r : HairAnalysis, ∃ a b : String,
      formatted_result r = a ++ (toString r.health_score ++ "/10") ++ b ∧
      (∃ a0, a = a0 ++ "\n5. Hair Health Score: ")) := by
  constructor
  · intro n
    exact ⟨{ hair_type := "", hair_texture := "", scalp_condition := "",
             visible_issues := [], health_score := n, recommendations := [] }, rfl⟩
  · intro r
    refine ⟨"\nHair Analysis Results:\n\n1. Hair Type: " ++ r.hair_type ++
        "\n2. Hair Texture: " ++ r.hair_texture ++
        "\n3. Scalp Condition: " ++ r.scalp_condition ++
        "\n4. Visible Issues:\n" ++ issuesSection r.visible_issues ++
        "\n5. Hair Health Score: ",
      "\n6. Recommendations:\n" ++ bulletLines r.recommendations ++ "\n", ?_, ?_⟩
    · simp only [formatted_result, String.append_assoc]
    · exact ⟨"\nHair Analysis Results:\n\n1. Hair Type: " ++ r.hair_type ++
        "\n2. Hair Texture: " ++ r.hair_texture ++
        "\n3. Scalp Condition: " ++ r.scalp_condition ++
        "\n4. Visible Issues:\n" ++ issuesSection r.visible_issues, rfl⟩

/-- C8: Exactly one environment variable, the remote-service credential
OPENAI_API_KEY, is consulted: the startup assignment fails when it is
absent (so the program never silently proceeds to a successful analysis),
and its outcome depends on no other variable. -/
theorem missing_api_key_fails_startup (env : String → Option String) :
    (env "OPENAI_API_KEY" = none →
      startupSetKey env = Except.error "str expected, not NoneType") ∧
    (∀ env2 : String → Option String,
      env "OPENAI_API_KEY" = env2 "OPENAI_API_KEY" →
      startupSetKey env = startupSetKey env2) := by
  constructor
  · intro h
    simp [startupSetKey, h]
  · intro env2 h
    simp only [startupSetKey, h]

/-- Witness for C8: an empty environment fails at startup. -/
theorem missing_api_key_fails_startup_witness :
    startupSetKey (fun _ => none) = Except.error "str expected, not NoneType" :=
  (missing_api_key_fails_startup (fun _ => none)).1 rfl

set_option maxRecDepth 8000

/-- C9: For every non-null image whose encoding succeeds, `analyze_hair`
sends exactly one request — no retries — consisting of the hard-coded model
identifier "gpt-4o-mini", the fixed system instruction whose rubric carries
the four labeled 1–10 score bands, the fixed user text, the encoded image as
the data URI `data:image/jpeg;base64,<encoding>`, and the Hair Analysis
Result shape as the requested output schema. -/
theorem single_request_fixed_contents {Image : Type}
    (jpegSerialize : Image → Except String (List Nat))
    (remoteParse : ChatRequest → Except String HairAnalysis)
    (img : Image) (jpeg : List Nat) (hok : jpegSerialize img = Except.ok jpeg) :
    (analyze_hair jpegSerialize remoteParse (some img)).2 =
      [buildRequest (b64encode jpeg)] ∧
    (buildRequest (b64encode jpeg)).model = "gpt-4o-mini" ∧
    (buildRequest (b64encode jpeg)).systemContent = systemPrompt ∧
    (buildRequest (b64encode jpeg)).userText = userPrompt ∧
    (buildRequest (b64encode jpeg)).imageUrl =
      "data:image/jpeg;base64," ++ b64encode jpeg ∧
    (buildRequest (b64encode jpeg)).responseFormat = ResponseFormat.hairAnalysis ∧
    "1-3: Poor condition".toList <:+: systemPrompt.toList ∧
    "4-6: Average condition".toList <:+: systemPrompt.toList ∧
    "7-8: Good condition".toList <:+: systemPrompt.toList ∧
    "9-10: Excellent condition".toList <:+: systemPrompt.toList := by
  refine ⟨?_, rfl, rfl, rfl, rfl, rfl, by decide, by decide, by decide, by decide⟩
  simp only [analyze_hair, encode_image, hok, Except.map]
  cases remoteParse (buildRequest (b64encode jpeg)) <;> rfl

/-- Witness for C9: a three-byte image, with a client that fails; the single
request is still constructed and sent, with the fixed contents. -/
theorem single_request_fixed_contents_witness :
    (analyze_hair (fun _ : Unit => Except.ok [255, 0, 16])
        (fun _ => Except.error "x") (some ())).2 =
      [buildRequest (b64encode [255, 0, 16])] ∧
    (buildRequest (b64encode [255, 0, 16])).model = "gpt-4o-mini" ∧
    (buildRequest (b64encode [255, 0, 16])).systemContent = systemPrompt ∧
    (buildRequest (b64encode [255, 0, 16])).userText = userPrompt ∧
    (buildRequest (b64encode [255, 0, 16])).imageUrl =
      "data:image/jpeg;base64," ++ b64encode [255, 0, 16] ∧
    (buildRequest (b64encode [255, 0, 16])).responseFormat = ResponseFormat.hairAnalysis ∧
    "1-3: Poor condition".toList <:+: systemPrompt.toList ∧
    "4-6: Average condition".toList <:+: systemPrompt.toList ∧
    "7-8: Good condition".toList <:+: systemPrompt.toList ∧
    "9-10: Excellent condition".toList <:+: systemPrompt.toList :=
  single_request_fixed_contents (fun _ => Except.ok [255, 0, 16])
    (fun _ => Except.error "x") () [255, 0, 16] rfl

/-- C10: For every result with empty `recommendations`, the formatter emits
an empty line after the "6. Recommendations:" header — no bulleted lines and
no placeholder line, unlike the Visible Issues section whose empty case
substitutes a placeholder. -/
theorem empty_recommendations_empty_line (r : HairAnalysis)
    (h : r.recommendations = []) :
    bulletLines r.recommendations = "" ∧
    issuesSection [] = "   No major issues detected" ∧
    ∃ a : String, formatted_result r = a ++ ("\n6. Recommendations:\n" ++ "\n") := by
  refine ⟨by rw [h]; rfl, rfl, ?_⟩
  refine ⟨"\nHair Analysis Results:\n\n1. Hair Type: " ++ r.hair_type ++
      "\n2. Hair Texture: " ++ r.hair_texture ++
      "\n3. Scalp Condition: " ++ r.scalp_condition ++
      "\n4. Visible Issues:\n" ++ issuesSection r.visible_issues ++
      "\n5. Hair Health Score: " ++ toString r.health_score ++ "/10", ?_⟩
  simp only [formatted_result, h, bulletLines]
  simp [String.append_assoc, String.append_empty, String.empty_append]

/-- Witness for C10: the example result with its recommendations emptied. -/
theorem empty_recommendations_empty_line_witness :
    bulletLines exampleNoRecs.recommendations = "" ∧
    issuesSection [] = "   No major issues detected" ∧
    ∃ a : String, formatted_result exampleNoRecs =
      a ++ ("\n6. Recommendations:\n" ++ "\n") :=
  empty_recommendations_empty_line exampleNoRecs rfl

/-- Witness for C1: a concrete absent image short-circuits. -/
theorem analyze_hair_none_short_circuits_witness :
    analyze_hair (fun _ : Unit => Except.error "e") (fun _ => Except.error "x")
      (none : Option Unit) = ("Please upload an image for analysis.", []) :=
  analyze_hair_none_short_circuits (fun _ => Except.error "e") (fun _ => Except.error "x")

/-- Witness for C7: scores -5 and 99, both outside the 1–10 range, are
accepted by the data model. -/
theorem health_score_not_validated_witness :
    (∃ r : HairAnalysis, r.health_score = -5) ∧
    (∃ r : HairAnalysis, r.health_score = 99) :=
  ⟨health_score_not_validated.1 (-5), health_score_not_validated.1 99⟩
